import Mathlib

set_option autoImplicit false

/-!
Verification of the reactive gesture-and-performance pipeline of the
phaser_framework_smtheapex repository.

Shallow embedding conventions:
* Timestamps are integer milliseconds and positions are integer pixel
  offsets; frame rates and pixel widths are integers as well (the
  performance monitor publishes Math.round-ed figures).  Quantities the
  pipeline merely stores or compares, but never computes with, stay
  rational (resolution scale, memory in MB, battery level, reported
  device memory).  Rational constants are written with mkRat, since this
  file keeps every definition evaluable inside the kernel.
* Euclidean distances in the source are computed as Math.sqrt of a sum
  of squares and then compared with a constant r.  Since sqrt d < r iff
  d < r * r for nonnegative d and r, the embedding compares squared
  distances with squared constants throughout.
* RxJS operators are embedded as explicit functions on time-stamped
  event lists: throttleTime as a fold keeping the last leading-edge
  emission time, bufferTime as grouping by fixed consecutive windows
  measured from subscription, and switchMap plus timer plus takeUntil
  for the pending single-tap as a scan over the ordered tap stream.
* Fallible operations return Option; the save layer's try/catch
  wrappers, which convert any exception into a null result, make the
  embedded load a total function into Option.
-/

namespace AdaptiveRenderer

/-- Quality tier of the render settings, from src/unnamed/part_008
(`quality: 'low' | 'medium' | 'high' | 'ultra'`). -/
inductive Quality where
  | low | medium | high | ultra
deriving DecidableEq

/-- Shadow quality (`'off' | 'low' | 'high'`). -/
inductive ShadowQuality where
  | off | low | high
deriving DecidableEq

/-- Thermal state (`'normal' | 'fair' | 'serious' | 'critical'`). -/
inductive Thermal where
  | normal | fair | serious | critical
deriving DecidableEq

/-- Device tier (`'low' | 'mid' | 'high'`). -/
inductive Tier where
  | low | mid | high
deriving DecidableEq

/-- RenderSettings interface from src/unnamed/part_008. -/
structure RenderSettings where
  quality : Quality
  targetFPS : ℤ
  resolution : ℚ
  antialiasing : Bool
  particleLimit : ℤ
  shadowQuality : ShadowQuality
  postProcessing : Bool
deriving DecidableEq

/-- AdaptivePerformanceMetrics interface from src/unnamed/part_008.
`batteryLevel` and `thermal` are optional fields; `none` models the JS
`undefined`, and a `batteryLevel` of `some 0` is falsy in the source's
truthiness tests. -/
structure AdaptivePerformanceMetrics where
  fps : ℤ
  frameTime : ℚ
  memory : ℚ
  drawCalls : ℤ
  triangles : ℤ
  batteryLevel : Option ℚ
  thermal : Option Thermal
deriving DecidableEq

/-- The fixed `thresholds` record of AdaptiveRenderer:
fpsTargets high 58, medium 45, low 30; memoryWarning 150 MB. -/
structure Thresholds where
  fpsHigh : ℤ
  fpsMedium : ℤ
  fpsLow : ℤ
  memoryWarning : ℚ

/-- The literal threshold values of the source. -/
def thresholds : Thresholds :=
  { fpsHigh := 58, fpsMedium := 45, fpsLow := 30, memoryWarning := 150 }

/-- The memory clamp bound of calculateOptimalSettings:
`this.thresholds.memoryWarning * 0.8`, that is 150 * 0.8 = 120 MB,
precomputed here because the constant multiplication carries no input
dependence. -/
def memoryClampBound : ℚ := 120

/-- AdaptiveRenderer.calculateOptimalSettings (src/unnamed/part_008,
lines 442-492), as a function of the sample, the current settings held
in `currentSettings$`, and the detected device tier.  The source starts
from a spread copy of the current settings and overrides fields branch
by branch; the embedding threads the record through the same branches in
source order (fps ladder, memory clamp, thermal throttling, battery).
The resolution constants 0.5, 0.7 and 1.0 of the source are written
with mkRat. -/
def calculateOptimalSettings (metrics : AdaptivePerformanceMetrics)
    (currentSettings : RenderSettings) (deviceTier : Tier) : RenderSettings :=
  let s1 :=
    if metrics.fps < thresholds.fpsLow then
      { currentSettings with
        quality := Quality.low, resolution := mkRat 1 2, antialiasing := false,
        particleLimit := 50, shadowQuality := ShadowQuality.off,
        postProcessing := false }
    else if metrics.fps < thresholds.fpsMedium then
      { currentSettings with
        quality := Quality.medium, resolution := mkRat 7 10, antialiasing := false,
        particleLimit := 100, shadowQuality := ShadowQuality.low,
        postProcessing := false }
    else if thresholds.fpsHigh ≤ metrics.fps then
      if deviceTier = Tier.high ∧ currentSettings.quality ≠ Quality.ultra then
        { currentSettings with
          quality := Quality.high, resolution := 1, antialiasing := true,
          particleLimit := 300, shadowQuality := ShadowQuality.high,
          postProcessing := true }
      else currentSettings
    else currentSettings
  let s2 :=
    if memoryClampBound < metrics.memory then
      { s1 with particleLimit := min s1.particleLimit 50, postProcessing := false }
    else s1
  let s3 :=
    match metrics.thermal with
    | some t =>
        if t = Thermal.serious ∨ t = Thermal.critical then
          { s2 with quality := Quality.low, targetFPS := 30 }
        else s2
    | none => s2
  match metrics.batteryLevel with
  | some b =>
      if b ≠ 0 ∧ b < 20 then
        { s3 with quality := Quality.low, targetFPS := 30, postProcessing := false }
      else s3
  | none => s3

/-- The filter predicate of the emergency subscription in
setupPerformanceReactions: fps < 20 or memory above the warning
threshold. -/
def emergencyCondition (m : AdaptivePerformanceMetrics) : Bool :=
  decide (m.fps < 20) || decide (thresholds.memoryWarning < m.memory)

/-- RxJS throttleTime with the default leading-edge configuration: an
event is emitted when no throttle window is open, and opens a window of
`dur` milliseconds during which further events are dropped; `last` is
the time of the last leading emission. -/
def throttleTimeAux {α : Type} (dur : ℤ) (last : Option ℤ) :
    List (ℤ × α) → List (ℤ × α)
  | [] => []
  | (t, a) :: rest =>
    match last with
    | none => (t, a) :: throttleTimeAux dur (some t) rest
    | some l =>
        if l + dur ≤ t then (t, a) :: throttleTimeAux dur (some t) rest
        else throttleTimeAux dur (some l) rest

/-- The emergency pipeline of setupPerformanceReactions:
`performanceMetrics$.pipe(filter(fps < 20 or memory > warning),
throttleTime(5000))`.  Input: time-stamped performance samples; output:
the samples on which emergencyQualityReduction fires. -/
def emergencyFirings (samples : List (ℤ × AdaptivePerformanceMetrics)) :
    List (ℤ × AdaptivePerformanceMetrics) :=
  throttleTimeAux 5000 none (samples.filter (fun s => emergencyCondition s.2))

/-- The fixed settings applied by
AdaptiveRenderer.emergencyQualityReduction (src/unnamed/part_008,
lines 543-558). -/
def emergencySettings : RenderSettings :=
  { quality := Quality.low, targetFPS := 30, resolution := mkRat 1 2,
    antialiasing := false, particleLimit := 25,
    shadowQuality := ShadowQuality.off, postProcessing := false }

/-- Substring test on character lists, embedding JS String.includes as
used on the lower-cased vendor-renderer string. -/
def includesSub (pat : List Char) : List Char → Bool
  | [] => pat.isEmpty
  | c :: rest => pat.isPrefixOf (c :: rest) || includesSub pat rest

/-- AdaptiveRenderer.detectDeviceTier (src/unnamed/part_008, lines
563-595) as a function of WebGL availability, the lower-cased
vendor-renderer string, and the optional reported device memory.  The
source assigns low when no GL context exists, then classifies by GPU
substring heuristics (unmatched strings fall to the final else branch),
then lets a truthy device-memory reading override the tier.  A reading
of `some 0` is falsy in JS and triggers no override. -/
def detectDeviceTier (glAvailable : Bool) (gpuInfo : List Char)
    (deviceMemory : Option ℚ) : Tier :=
  if !glAvailable then Tier.low
  else
    let base :=
      if includesSub ("adreno 6".toList) gpuInfo
          || includesSub ("mali-g7".toList) gpuInfo
          || includesSub ("apple a1".toList) gpuInfo then Tier.high
      else if includesSub ("adreno 5".toList) gpuInfo
          || includesSub ("mali-g".toList) gpuInfo
          || includesSub ("apple a".toList) gpuInfo then Tier.mid
      else Tier.low
    match deviceMemory with
    | none => base
    | some m =>
        if m ≠ 0 ∧ m < 3 then Tier.low
        else if m ≠ 0 ∧ 6 ≤ m then Tier.high
        else base

/-- A sample with fps 50 and no memory, thermal or battery pressure,
used to exhibit the dependence of calculateOptimalSettings on the
current settings. -/
def sampleFps50 : AdaptivePerformanceMetrics :=
  { fps := 50, frameTime := 20, memory := 0, drawCalls := 0,
    triangles := 0, batteryLevel := none, thermal := none }

/-- A sample with fps 10, driving the emergency path. -/
def sampleFps10 : AdaptivePerformanceMetrics :=
  { fps := 10, frameTime := 100, memory := 0, drawCalls := 0,
    triangles := 0, batteryLevel := none, thermal := none }

/-- A sample with fps 25, the concrete case named by the spec. -/
def sampleFps25 : AdaptivePerformanceMetrics :=
  { fps := 25, frameTime := 40, memory := 0, drawCalls := 0,
    triangles := 0, batteryLevel := none, thermal := none }

/-- Low-quality current settings used in concrete evaluations. -/
def settingsLow : RenderSettings :=
  { quality := Quality.low, targetFPS := 60, resolution := mkRat 1 2,
    antialiasing := false, particleLimit := 50,
    shadowQuality := ShadowQuality.off, postProcessing := false }

/-- Medium-quality current settings used in concrete evaluations. -/
def settingsMedium : RenderSettings :=
  { quality := Quality.medium, targetFPS := 60, resolution := mkRat 7 10,
    antialiasing := false, particleLimit := 100,
    shadowQuality := ShadowQuality.low, postProcessing := false }

end AdaptiveRenderer

/-- Grouping of a time-sorted event list into runs with equal window
index, embedding RxJS bufferTime: the fixed consecutive buffer windows
are measured from subscription, so two events share a buffer exactly
when their window indices agree. -/
def groupByKey {α : Type} (key : α → ℤ) : List α → List (List α)
  | [] => []
  | a :: rest =>
    match groupByKey key rest with
    | [] => [[a]]
    | [] :: gs => [a] :: gs
    | (b :: g) :: gs =>
        if key a = key b then (a :: b :: g) :: gs else [a] :: (b :: g) :: gs

/-- The index of the fixed `win`-millisecond buffer window containing
time `t`, with windows measured from subscription at time 0: the floor
of t / win. -/
def windowIdx (win t : ℤ) : ℤ := Int.fdiv t win

namespace GestureManager

/-- Squared Euclidean distance; GestureManager.getDistance computes
Math.sqrt of this quantity, and every comparison of it with a constant
is embedded as a comparison with the squared constant. -/
def dist2 (x1 y1 x2 y2 : ℤ) : ℤ :=
  (x2 - x1) * (x2 - x1) + (y2 - y1) * (y2 - y1)

/-- A completed single-contact touch sequence: start and end events with
their timestamps and positions.  Intra-contact moves are not carried:
the claims under study concern contacts whose total displacement stays
under the cancellation radius (the separate per-contact event model
below serves the long-press classifier). -/
structure Contact where
  startT : ℤ
  startX : ℤ
  startY : ℤ
  endT : ℤ
  endX : ℤ
  endY : ℤ
deriving DecidableEq

/-- A tap-stream record: arrival time (the touch-end time) and end
position of a qualifying tap. -/
structure TapRec where
  t : ℤ
  x : ℤ
  y : ℤ
deriving DecidableEq

/-- The end record of a contact as it appears on the tap stream. -/
def endRec (c : Contact) : TapRec := { t := c.endT, x := c.endX, y := c.endY }

/-- The tap$ filter of GestureManager.setupTapDetection: the touch end
must arrive before the 300 ms tapTimeout timer measured from the touch
start, and the start-to-end distance must be below 10 px. -/
def tapQualifies (c : Contact) : Bool :=
  decide (c.endT < c.startT + 300)
    && decide (dist2 c.startX c.startY c.endX c.endY < 100)

/-- The tap$ stream produced by a time-ordered list of completed
contacts: qualifying contacts, represented by their end records. -/
def tapStream (cs : List Contact) : List TapRec :=
  (cs.filter tapQualifies).map endRec

/-- The single-tap subscription of setupTapDetection:
`tap$.pipe(switchMap(tapData => timer(300).map(() => tapData).takeUntil(tap$)))`.
Each tap starts a 300 ms timer holding the tap; a later tap arriving
strictly before the timer fires cancels it (switchMap switches and
takeUntil completes the inner stream).  On an ordered tap stream the
pending tap of `a` survives exactly when the next tap is not earlier
than `a.t + 300`. -/
def singleTapEmits : List TapRec → List TapRec
  | [] => []
  | [a] => [a]
  | a :: b :: rest =>
      if b.t < a.t + 300 then singleTapEmits (b :: rest)
      else a :: singleTapEmits (b :: rest)

/-- The double-tap subscription of setupTapDetection:
`tap$.pipe(bufferTime(300), filter(length = 2), filter(distance < 50))`,
emitting the second tap of a buffer that holds exactly two taps whose
end positions are within 50 px. -/
def doubleTapEmits (taps : List TapRec) : List TapRec :=
  (groupByKey (fun r => windowIdx 300 r.t) taps).filterMap fun g =>
    match g with
    | [a, b] => if dist2 a.x a.y b.x b.y < 2500 then some b else none
    | _ => none

/-- The swipe filter of GestureManager.setupSwipeDetection: the end must
arrive before the 300 ms swipeMaxTime timer and the displacement must
reach 50 px. -/
def swipeQualifies (c : Contact) : Bool :=
  decide (c.endT < c.startT + 300)
    && decide (2500 ≤ dist2 c.startX c.startY c.endX c.endY)

/-- Swipe emissions for a list of completed contacts. -/
def swipeEmits (cs : List Contact) : List Contact :=
  cs.filter swipeQualifies

/-- Long-press emissions for completed contacts without intra-contact
moves: the 500 ms longPressDelay timer is cancelled by takeUntil on the
touch end, so it fires only when the contact lasts at least 500 ms. -/
def longPressEmits (cs : List Contact) : List Contact :=
  cs.filter (fun c => decide (c.startT + 500 ≤ c.endT))

/-- A quick motionless contact: start at time 0, end at time 50, both
at the origin. -/
def tapContactA : Contact :=
  { startT := 0, startX := 0, startY := 0, endT := 50, endX := 0, endY := 0 }

/-- A second quick motionless contact at the same position, starting at
time 150 and ending at time 250, 200 ms after tapContactA ends. -/
def tapContactB : Contact :=
  { startT := 150, startX := 0, startY := 0, endT := 250, endX := 0, endY := 0 }

/-- An event observed during a single active contact: a touch move with
its position, or the touch end. -/
inductive ContactEv where
  | move (t x y : ℤ)
  | up (t : ℤ)
deriving DecidableEq

/-- Arrival time of a contact event. -/
def ContactEv.time : ContactEv → ℤ
  | ContactEv.move t _ _ => t
  | ContactEv.up t => t

/-- GestureManager.setupLongPressDetection for one contact starting at
time `t0` and position `(x0, y0)`, given the time-ordered events of the
contact: `timer(500).takeUntil(touchEnd$).takeUntil(touchmove filtered
to distance > 10)`.  Walking the events in order, the first touch end or
move beyond 10 px arriving strictly before `t0 + 500` unsubscribes the
timer (explicit cancellation); if no such event precedes the deadline
the timer fires and the long-press is emitted. -/
def longPressFires (t0 x0 y0 : ℤ) : List ContactEv → Bool
  | [] => true
  | ev :: rest =>
    if ev.time < t0 + 500 then
      match ev with
      | ContactEv.up _ => false
      | ContactEv.move _ x y =>
          if 100 < dist2 x0 y0 x y then false
          else longPressFires t0 x0 y0 rest
    else true

/-- An event disqualifies the pending long-press when it arrives
strictly before the 500 ms deadline and is a touch end or a move beyond
10 px from the start position. -/
def cancelsLongPress (t0 x0 y0 : ℤ) (ev : ContactEv) : Prop :=
  ev.time < t0 + 500 ∧
    match ev with
    | ContactEv.up _ => True
    | ContactEv.move _ x y => 100 < dist2 x0 y0 x y

instance (t0 x0 y0 : ℤ) (ev : ContactEv) :
    Decidable (cancelsLongPress t0 x0 y0 ev) := by
  unfold cancelsLongPress
  cases ev <;> exact inferInstanceAs (Decidable (_ ∧ _))

end GestureManager

namespace EnhancedResponsiveManager

/-- The 15 named breakpoint thresholds of EnhancedResponsiveManager
(src/src/core/EnhancedResponsiveManager.ts, lines 86-102). -/
structure Enhanced2025Breakpoints where
  mobile_xs : ℚ
  mobile_sm : ℚ
  mobile_md : ℚ
  mobile_lg : ℚ
  tablet_sm : ℚ
  tablet_md : ℚ
  tablet_lg : ℚ
  tablet_xl : ℚ
  tablet_pro : ℚ
  tablet_pro_xl : ℚ
  desktop_sm : ℚ
  desktop_md : ℚ
  desktop_lg : ℚ
  desktop_xl : ℚ
  desktop_xxl : ℚ

/-- The default breakpoint table of the source. -/
def defaultBreakpoints : Enhanced2025Breakpoints :=
  { mobile_xs := 320, mobile_sm := 375, mobile_md := 414, mobile_lg := 480,
    tablet_sm := 600, tablet_md := 768, tablet_lg := 834, tablet_xl := 1024,
    tablet_pro := 1194, tablet_pro_xl := 1366,
    desktop_sm := 1280, desktop_md := 1440, desktop_lg := 1680,
    desktop_xl := 1920, desktop_xxl := 2560 }

/-- EnhancedResponsiveManager.detectBreakpoint
(src/src/core/EnhancedResponsiveManager.ts, lines 442-460): the exact
cascade of the source, which checks the desktop thresholds first, then
the tablet thresholds, then the mobile thresholds. -/
def detectBreakpoint (bp : Enhanced2025Breakpoints) (width : ℚ) : String :=
  if bp.desktop_xxl ≤ width then "desktop_xxl"
  else if bp.desktop_xl ≤ width then "desktop_xl"
  else if bp.desktop_lg ≤ width then "desktop_lg"
  else if bp.desktop_md ≤ width then "desktop_md"
  else if bp.desktop_sm ≤ width then "desktop_sm"
  else if bp.tablet_pro_xl ≤ width then "tablet_pro_xl"
  else if bp.tablet_pro ≤ width then "tablet_pro"
  else if bp.tablet_xl ≤ width then "tablet_xl"
  else if bp.tablet_lg ≤ width then "tablet_lg"
  else if bp.tablet_md ≤ width then "tablet_md"
  else if bp.tablet_sm ≤ width then "tablet_sm"
  else if bp.mobile_lg ≤ width then "mobile_lg"
  else if bp.mobile_md ≤ width then "mobile_md"
  else if bp.mobile_sm ≤ width then "mobile_sm"
  else "mobile_xs"

/-- Modelled from the spec: the classifier the specification describes,
scanning the default breakpoint table from the largest threshold to the
smallest and returning the first (hence widest) breakpoint whose
threshold the width meets or exceeds.  Note that the default thresholds
sorted in decreasing order interleave tablet_pro_xl (1366) between
desktop_md (1440) and desktop_sm (1280). -/
def specWidestBreakpoint (width : ℚ) : String :=
  if (2560 : ℚ) ≤ width then "desktop_xxl"
  else if (1920 : ℚ) ≤ width then "desktop_xl"
  else if (1680 : ℚ) ≤ width then "desktop_lg"
  else if (1440 : ℚ) ≤ width then "desktop_md"
  else if (1366 : ℚ) ≤ width then "tablet_pro_xl"
  else if (1280 : ℚ) ≤ width then "desktop_sm"
  else if (1194 : ℚ) ≤ width then "tablet_pro"
  else if (1024 : ℚ) ≤ width then "tablet_xl"
  else if (834 : ℚ) ≤ width then "tablet_lg"
  else if (768 : ℚ) ≤ width then "tablet_md"
  else if (600 : ℚ) ≤ width then "tablet_sm"
  else if (480 : ℚ) ≤ width then "mobile_lg"
  else if (414 : ℚ) ≤ width then "mobile_md"
  else if (375 : ℚ) ≤ width then "mobile_sm"
  else "mobile_xs"

end EnhancedResponsiveManager

namespace ReactiveEventBus

/-- ReactiveEventBus.doubleClick (src/src/utils/ReactiveEventBus.ts,
lines 62-68): `stream(name).pipe(bufferTime(timeWindow),
filter(events.length = 2), map(events => events[1]))`, on the
time-ordered list of event times of the named channel. -/
def doubleClickEmits (timeWindow : ℤ) (ts : List ℤ) : List ℤ :=
  (groupByKey (fun t => windowIdx timeWindow t) ts).filterMap fun g =>
    match g with
    | [_, b] => some b
    | _ => none

end ReactiveEventBus

namespace SaveManager

/-- Coercion of an integer to a signed 32-bit value, embedding the JS
ToInt32 conversion performed by the bitwise operators in
SaveManager.generateHash. -/
def jsToInt32 (n : ℤ) : ℤ := (n + 2 ^ 31) % 2 ^ 32 - 2 ^ 31

/-- One step of the hash loop of SaveManager.generateHash
(src/unnamed/part_012): `hash = ((hash << 5) - hash) + char;
hash = hash & hash`.  The shift wraps the accumulator to 32 bits, the
subtraction and character addition are exact, and the final self-AND
coerces back to a signed 32-bit integer. -/
def hashStep (h : ℤ) (c : ℕ) : ℤ := jsToInt32 (jsToInt32 (h * 32) - h + c)

/-- The accumulated hash over the UTF-16 code units of the serialized
payload, starting from 0. -/
def hashFold (codes : List ℕ) : ℤ := codes.foldl hashStep 0

/-- Digit character for base 36, lower case as produced by the JS
Number.toString(36). -/
def base36Char (d : ℕ) : Char :=
  if d < 10 then Char.ofNat (48 + d) else Char.ofNat (87 + d)

/-- Base-36 digit expansion, most significant digit first.  The first
argument is structural fuel; `n + 1` units always suffice because the
value shrinks by a factor of 36 at each step. -/
def natToBase36Aux : ℕ → ℕ → List Char → List Char
  | 0, _, acc => acc
  | fuel + 1, n, acc =>
      if n < 36 then base36Char n :: acc
      else natToBase36Aux fuel (n / 36) (base36Char (n % 36) :: acc)

/-- Base-36 rendering of a natural number, as JS Number.toString(36). -/
def natToBase36 (n : ℕ) : String := String.mk (natToBase36Aux (n + 1) n [])

/-- JS Number.toString(36) on a 32-bit integer value: a leading minus
sign for negative values, base-36 digits of the absolute value. -/
def jsToString36 (i : ℤ) : String :=
  if i < 0 then "-" ++ natToBase36 i.natAbs else natToBase36 i.toNat

/-- SaveManager.generateHash: the 32-bit rolling hash of the serialized
payload, rendered in base 36.  The payload is represented by the UTF-16
code units of its JSON serialization. -/
def generateHash (serialized : List ℕ) : String :=
  jsToString36 (hashFold serialized)

/-- The versioned save envelope written by SaveManager.save.  The
`data` field carries the payload, represented by the code units of its
JSON serialization (JSON round-tripping is taken as faithful); `hash` is
the stored checksum string, with the empty string standing for a missing
or empty (JS-falsy) hash field. -/
structure SaveData where
  version : String
  timestamp : ℤ
  data : List ℕ
  hash : String
deriving DecidableEq

/-- SaveManager.getVersion: the fixed current version string. -/
def getVersion : String := "1.0.0"

/-- SaveManager.save: build the envelope with the current version, the
timestamp, the payload, and the freshly computed hash of the payload. -/
def save (data : List ℕ) (now : ℤ) : SaveData :=
  { version := getVersion, timestamp := now, data := data,
    hash := generateHash data }

/-- SaveManager.verifyIntegrity (src/unnamed/part_012, lines 177-182):
a falsy hash field skips verification entirely; otherwise the stored
hash must equal the hash recomputed over the stored payload. -/
def verifyIntegrity (sd : SaveData) : Bool :=
  if sd.hash = "" then true
  else decide (sd.hash = generateHash sd.data)

/-- Decimal digit value of a character, for the JS Number conversion of
version components. -/
def digitVal? (c : Char) : Option ℕ :=
  if 48 ≤ c.toNat ∧ c.toNat ≤ 57 then some (c.toNat - 48) else none

/-- Decimal accumulation over a digit list; any non-digit character
makes the JS Number conversion produce NaN, modelled by none. -/
def parseNatAux : List Char → ℕ → Option ℕ
  | [], acc => some acc
  | c :: rest, acc =>
      match digitVal? c with
      | some d => parseNatAux rest (acc * 10 + d)
      | none => none

/-- JS Number on a version component: digit strings map to their value
(the empty string maps to 0 in JS, consistently handled here), anything
else is NaN, modelled by none. -/
def jsNumberNat? (s : List Char) : Option ℕ := parseNatAux s 0

/-- Split a character list on the dot character, embedding the
String.split call of SaveManager.isVersionCompatible. -/
def splitOnDot : List Char → List (List Char)
  | [] => [[]]
  | c :: rest =>
      let r := splitOnDot rest
      if c = '.' then [] :: r
      else
        match r with
        | [] => [[c]]
        | g :: gs => (c :: g) :: gs

/-- SaveManager.isVersionCompatible: split both version strings on dots,
convert the components to numbers, and require the leading (major)
components to be equal.  A NaN component (none) compares unequal, as
NaN does in JS. -/
def isVersionCompatible (version : String) : Bool :=
  let current := (splitOnDot getVersion.toList).map jsNumberNat?
  let saved := (splitOnDot version.toList).map jsNumberNat?
  match current.head?, saved.head? with
  | some (some a), some (some b) => decide (a = b)
  | _, _ => false

/-- SaveManager.migrate: the placeholder migration returns the stored
payload unchanged. -/
def migrate (sd : SaveData) : Option (List ℕ) := some sd.data

/-- A stored envelope for the payload with code units 72, 105 whose
serialized payload suffered a single bit flip (105 to 104, the lowest
bit), leaving the hash computed over the original payload in place. -/
def corruptedSave : SaveData :=
  { version := "1.0.0", timestamp := 5, data := [72, 104],
    hash := generateHash [72, 105] }

/-- A stored envelope whose hash field was deleted (the empty string is
the JS-falsy stand-in) and whose payload nothing vouches for. -/
def hashlessSave : SaveData :=
  { version := "1.0.0", timestamp := 7, data := [9, 9, 9], hash := "" }

/-- SaveManager.load on the parsed stored envelope (`none` models a
missing or unparseable stored string, for which the source returns null
after its catch-all): a failed integrity check yields null, an
incompatible version goes through the migration hook, and otherwise the
payload is returned.  The source wraps the whole body in try/catch and
returns null on any exception, so the embedded load is total. -/
def load (stored : Option SaveData) : Option (List ℕ) :=
  match stored with
  | none => none
  | some sd =>
      if !verifyIntegrity sd then none
      else if !isVersionCompatible sd.version then migrate sd
      else some sd.data

end SaveManager

/-! ## Theorems -/

section Claims

open AdaptiveRenderer GestureManager EnhancedResponsiveManager SaveManager

/-- Claim C1, counterexample: the candidate settings computed by
calculateOptimalSettings are not a function of the sample and the
device tier alone.  For the same fps-50 sample and the same high device
tier, two different current settings yield two different candidates:
with fps between the medium (45) and high (58) targets no branch of the
ladder fires and the candidate is the untouched copy of the current
settings. -/
theorem c1_counterexample :
    calculateOptimalSettings sampleFps50 settingsLow Tier.high ≠
      calculateOptimalSettings sampleFps50 settingsMedium Tier.high := by
  decide

/-- Claim C1, amended: the candidate is a pure function of the sample,
the device tier and the current settings, not of the first two alone:
the computation starts from a copy of the current settings, and for any
sample with 45 ≤ fps < 58 and no memory, thermal or battery trigger the
candidate equals the current settings unchanged, whatever they are. -/
theorem c1_candidate_copies_current_settings
    (m : AdaptivePerformanceMetrics) (s : RenderSettings) (tier : Tier)
    (h45 : 45 ≤ m.fps) (h58 : m.fps < 58) (hmem : m.memory ≤ 120)
    (hth : ∀ th, m.thermal = some th →
      th ≠ Thermal.serious ∧ th ≠ Thermal.critical)
    (hb : ∀ b, m.batteryLevel = some b → b = 0 ∨ 20 ≤ b) :
    calculateOptimalSettings m s tier = s := by
  unfold calculateOptimalSettings thresholds memoryClampBound
  have h1 : ¬ m.fps < 30 := by omega
  have h2 : ¬ m.fps < 45 := by omega
  have h3 : ¬ (58 : ℤ) ≤ m.fps := by omega
  have h4 : ¬ (120 : ℚ) < m.memory := not_lt.2 hmem
  simp only [h1, h2, h3, h4, if_false, if_true, ite_false]
  cases hth2 : m.thermal with
  | none =>
      cases hb2 : m.batteryLevel with
      | none => rfl
      | some b =>
          have := hb b hb2
          have hbf : ¬ (b ≠ 0 ∧ b < 20) := by
            rintro ⟨hne, hlt⟩
            rcases this with h0 | h20
            · exact hne h0
            · exact absurd hlt (not_lt.2 h20)
          simp [hbf]
  | some th =>
      have := hth th hth2
      have htf : ¬ (th = Thermal.serious ∨ th = Thermal.critical) := by
        rintro (h | h)
        · exact this.1 h
        · exact this.2 h
      simp only [htf, if_false, ite_false]
      cases hb2 : m.batteryLevel with
      | none => rfl
      | some b =>
          have := hb b hb2
          have hbf : ¬ (b ≠ 0 ∧ b < 20) := by
            rintro ⟨hne, hlt⟩
            rcases this with h0 | h20
            · exact hne h0
            · exact absurd hlt (not_lt.2 h20)
          simp [hbf]

/-- Claim C1, witness for the amended theorem: at the fps-50 sample with
the low current settings and high tier, the candidate is exactly the
current settings. -/
theorem c1_witness :
    calculateOptimalSettings sampleFps50 settingsLow Tier.high = settingsLow :=
  c1_candidate_copies_current_settings sampleFps50 settingsLow Tier.high
    (by decide) (by decide) (by decide)
    (fun th h => Option.noConfusion h) (fun b h => Option.noConfusion h)

/-- Claim C2: on any sample with fps < 30, for every current settings
and every device tier (including high), the candidate quality is low
and in particular never high: the low-fps branch of the ladder fires
first, the memory clamp leaves the quality field alone, and the thermal
and battery overrides can only reassert low. -/
theorem c2_low_fps_forces_low_quality
    (m : AdaptivePerformanceMetrics) (s : RenderSettings) (tier : Tier)
    (h : m.fps < 30) :
    (calculateOptimalSettings m s tier).quality = Quality.low ∧
      (calculateOptimalSettings m s tier).quality ≠ Quality.high := by
  have hq : (calculateOptimalSettings m s tier).quality = Quality.low := by
    unfold calculateOptimalSettings
    simp only [thresholds, memoryClampBound]
    rcases hth : m.thermal with _ | th <;> rcases hb : m.batteryLevel with _ | b <;>
      simp only [hth, hb] <;> split_ifs <;> first | rfl | omega
  exact ⟨hq, by rw [hq]; exact fun hc => Quality.noConfusion hc⟩

/-- Claim C2, witness: the spec's concrete case, fps 25 with device
tier high, yields quality low and not high. -/
theorem c2_witness :
    (calculateOptimalSettings sampleFps25 settingsMedium Tier.high).quality =
        Quality.low ∧
      (calculateOptimalSettings sampleFps25 settingsMedium Tier.high).quality ≠
        Quality.high :=
  c2_low_fps_forces_low_quality sampleFps25 settingsMedium Tier.high (by decide)

/-- Every sample passed on by an open throttle window anchored at `l`
arrives no earlier than `l + dur`. -/
theorem throttleTimeAux_some_lb {α : Type} (dur : ℤ) (hdur : 0 ≤ dur) (l : ℤ)
    (xs : List (ℤ × α)) :
    ∀ y ∈ throttleTimeAux dur (some l) xs, l + dur ≤ y.1 := by
  induction xs generalizing l with
  | nil => intro y hy; simp [throttleTimeAux] at hy
  | cons x rest ih =>
      obtain ⟨t, a⟩ := x
      intro y hy
      by_cases h : l + dur ≤ t
      · rw [throttleTimeAux, if_pos h] at hy
        rcases List.mem_cons.1 hy with hy | hy
        · subst hy; exact h
        · have := ih t y hy
          omega
      · rw [throttleTimeAux, if_neg h] at hy
        exact ih l y hy

/-- Consecutive emissions of a leading-edge throttle are at least one
window length apart, for any input sample list. -/
theorem throttleTimeAux_chain {α : Type} (dur : ℤ) (hdur : 0 ≤ dur)
    (last : Option ℤ) (xs : List (ℤ × α)) :
    List.Chain' (fun a b => a.1 + dur ≤ b.1) (throttleTimeAux dur last xs) := by
  induction xs generalizing last with
  | nil => cases last <;> simp [throttleTimeAux]
  | cons x rest ih =>
      obtain ⟨t, a⟩ := x
      cases last with
      | none =>
          rw [throttleTimeAux]
          refine List.chain'_cons'.2 ⟨?_, ih (some t)⟩
          intro y hy
          exact throttleTimeAux_some_lb dur hdur t rest y (List.mem_of_mem_head? hy)
      | some l =>
          by_cases h : l + dur ≤ t
          · rw [throttleTimeAux, if_pos h]
            refine List.chain'_cons'.2 ⟨?_, ih (some t)⟩
            intro y hy
            exact throttleTimeAux_some_lb dur hdur t rest y (List.mem_of_mem_head? hy)
          · rw [throttleTimeAux, if_neg h]
            exact ih (some l)

/-- Claim C3: the emergency subscription fires exactly on the samples
selected by the fps-below-20-or-memory-above-warning filter, throttled
so that consecutive firings are at least 5000 ms apart; for the spec's
concrete scenario of two fps-10 samples 1000 ms apart the reduction
fires exactly once, on the first sample; and the forced settings it
applies carry the lowest quality tier. -/
theorem c3_emergency_throttled :
    (∀ samples : List (ℤ × AdaptivePerformanceMetrics),
        List.Chain' (fun a b => a.1 + 5000 ≤ b.1) (emergencyFirings samples)) ∧
      emergencyFirings [(0, sampleFps10), (1000, sampleFps10)] =
        [(0, sampleFps10)] ∧
      emergencySettings.quality = Quality.low ∧
      (∀ m : AdaptivePerformanceMetrics,
        emergencyCondition m = true ↔
          (m.fps < 20 ∨ (150 : ℚ) < m.memory)) := by
  refine ⟨?_, by decide, by decide, ?_⟩
  · intro samples
    exact throttleTimeAux_chain 5000 (by omega) none _
  · intro m
    simp [emergencyCondition, thresholds]

/-- Two times in the same fixed 300 ms buffer window lie strictly
within 300 ms of each other. -/
theorem windowIdx300_close (t1 t2 : ℤ)
    (h : windowIdx 300 t1 = windowIdx 300 t2) :
    t2 < t1 + 300 ∧ t1 < t2 + 300 := by
  unfold windowIdx at h
  rw [Int.fdiv_eq_ediv t1 (by omega), Int.fdiv_eq_ediv t2 (by omega)] at h
  omega

/-- Claim C4, counterexample: two qualifying taps (durations 50 and
100 ms, zero displacement, ends 200 ms apart at the same position, both
ends inside the first 300 ms buffer window) do produce exactly one
double-tap, but a single-tap event is ALSO emitted for the second tap
of the pair: the pair does not collapse to a double-tap alone. -/
theorem c4_counterexample :
    doubleTapEmits (tapStream [tapContactA, tapContactB]) =
        [endRec tapContactB] ∧
      singleTapEmits (tapStream [tapContactA, tapContactB]) =
        [endRec tapContactB] := by
  decide

/-- Claim C4, amended.  Isolated qualifying contact (duration under
200 ms, squared displacement under 100, no other contact): exactly one
tap is emitted and no double-tap, swipe or long-press.  Qualifying pair
whose ends fall in the same fixed 300 ms buffer window at end positions
within 50 px: exactly one double-tap is emitted, and additionally
exactly one single-tap — for the second tap of the pair — rather than
none; no swipe and no long-press. -/
theorem c4_tap_pipeline
    (c c1 c2 : Contact)
    (ha1 : c.endT - c.startT < 200)
    (ha2 : dist2 c.startX c.startY c.endX c.endY < 100)
    (hb1 : c1.endT - c1.startT < 200)
    (hb2 : dist2 c1.startX c1.startY c1.endX c1.endY < 100)
    (hb3 : c2.endT - c2.startT < 200)
    (hb4 : dist2 c2.startX c2.startY c2.endX c2.endY < 100)
    (hwin : windowIdx 300 c1.endT = windowIdx 300 c2.endT)
    (hpos : dist2 c1.endX c1.endY c2.endX c2.endY < 2500) :
    (singleTapEmits (tapStream [c]) = [endRec c] ∧
      doubleTapEmits (tapStream [c]) = [] ∧
      swipeEmits [c] = [] ∧
      longPressEmits [c] = []) ∧
    (doubleTapEmits (tapStream [c1, c2]) = [endRec c2] ∧
      singleTapEmits (tapStream [c1, c2]) = [endRec c2] ∧
      swipeEmits [c1, c2] = [] ∧
      longPressEmits [c1, c2] = []) := by
  have hqual : ∀ d : Contact, d.endT - d.startT < 200 →
      dist2 d.startX d.startY d.endX d.endY < 100 → tapQualifies d = true := by
    intro d h1 h2
    simp only [tapQualifies, Bool.and_eq_true, decide_eq_true_eq]
    exact ⟨by omega, h2⟩
  have hswipe : ∀ d : Contact, dist2 d.startX d.startY d.endX d.endY < 100 →
      swipeQualifies d = false := by
    intro d h2
    simp only [swipeQualifies, Bool.and_eq_false_iff, decide_eq_false_iff_not,
      not_le, not_lt]
    right
    omega
  have hlp : ∀ d : Contact, d.endT - d.startT < 200 →
      decide (d.startT + 500 ≤ d.endT) = false := by
    intro d h1
    simp only [decide_eq_false_iff_not, not_le]
    omega
  constructor
  · refine ⟨?_, ?_, ?_, ?_⟩
    · simp [tapStream, hqual c ha1 ha2, singleTapEmits]
    · simp [tapStream, hqual c ha1 ha2, doubleTapEmits, groupByKey]
    · simp [swipeEmits, hswipe c ha2]
    · simp [longPressEmits, List.filter_cons, List.filter_nil, hlp c ha1]
  · have hstream : tapStream [c1, c2] = [endRec c1, endRec c2] := by
      simp [tapStream, hqual c1 hb1 hb2, hqual c2 hb3 hb4]
    have hclose := windowIdx300_close c1.endT c2.endT hwin
    refine ⟨?_, ?_, ?_, ?_⟩
    · rw [hstream]
      have hkey : windowIdx 300 (endRec c1).t = windowIdx 300 (endRec c2).t := hwin
      have hd : dist2 (endRec c1).x (endRec c1).y (endRec c2).x
          (endRec c2).y < 2500 := hpos
      simp [doubleTapEmits, groupByKey, hkey, hd]
    · rw [hstream]
      have hlt : (endRec c2).t < (endRec c1).t + 300 := by
        simp only [endRec]
        omega
      simp [singleTapEmits, hlt]
    · simp [swipeEmits, hswipe c1 hb2, hswipe c2 hb4]
    · simp [longPressEmits, List.filter_cons, List.filter_nil,
        hlp c1 hb1, hlp c2 hb3]

/-- Claim C4, witness for the amended theorem at the two concrete
contacts of the counterexample. -/
theorem c4_witness :
    (singleTapEmits (tapStream [tapContactA]) = [endRec tapContactA] ∧
      doubleTapEmits (tapStream [tapContactA]) = [] ∧
      swipeEmits [tapContactA] = [] ∧
      longPressEmits [tapContactA] = []) ∧
    (doubleTapEmits (tapStream [tapContactA, tapContactB]) =
        [endRec tapContactB] ∧
      singleTapEmits (tapStream [tapContactA, tapContactB]) =
        [endRec tapContactB] ∧
      swipeEmits [tapContactA, tapContactB] = [] ∧
      longPressEmits [tapContactA, tapContactB] = []) :=
  c4_tap_pipeline tapContactA tapContactA tapContactB
    (by decide) (by decide) (by decide) (by decide) (by decide) (by decide)
    (by decide) (by decide)

/-- Claim C5, counterexample: at width 1366 the source cascade returns
desktop_sm (threshold 1280), although the table contains the breakpoint
tablet_pro_xl with the larger threshold 1366 that the width also meets:
the desktop checks run before the tablet checks, so the widest matching
breakpoint does not win for widths in [1366, 1440). -/
theorem c5_counterexample :
    detectBreakpoint defaultBreakpoints 1366 = "desktop_sm" ∧
      specWidestBreakpoint 1366 = "tablet_pro_xl" ∧
      defaultBreakpoints.tablet_pro_xl ≤ 1366 ∧
      defaultBreakpoints.desktop_sm < defaultBreakpoints.tablet_pro_xl ∧
      ("desktop_sm" : String) ≠ "tablet_pro_xl" := by
  refine ⟨by decide, by decide, by decide, by decide, by decide⟩

/-- Claim C5, amended: breakpoint classification is a pure function of
the width and the table, it agrees with the widest-matching-threshold
rule of the spec for every width outside [1366, 1440) — in that interval
the source's fixed desktop-before-tablet check order returns desktop_sm
instead of tablet_pro_xl — and width 834 yields tablet_lg. -/
theorem c5_breakpoint_widest
    (w : Rat) (hw : ¬ ((1366 : Rat) ≤ w /\ w < 1440)) :
    detectBreakpoint defaultBreakpoints w = specWidestBreakpoint w /\
      detectBreakpoint defaultBreakpoints 834 = "tablet_lg" := by
  constructor
  . unfold detectBreakpoint specWidestBreakpoint
    simp only [defaultBreakpoints]
    rcases lt_or_le w 1366 with hcase | hcase
    . simp only [if_neg (show ¬ (1366 : Rat) ≤ w from by linarith)]
    . have h1440 : (1440 : Rat) ≤ w := by
        by_contra hlt
        push_neg at hlt
        exact hw ⟨hcase, hlt⟩
      by_cases h25 : (2560 : Rat) ≤ w
      . simp only [if_pos h25]
      . simp only [if_neg h25]
        by_cases h19 : (1920 : Rat) ≤ w
        . simp only [if_pos h19]
        . simp only [if_neg h19]
          by_cases h16 : (1680 : Rat) ≤ w
          . simp only [if_pos h16]
          . simp only [if_neg h16, if_pos h1440]
  . decide

/-- Claim C5, witness for the amended theorem at width 834, which is
outside the divergence interval. -/
theorem c5_witness :
    detectBreakpoint defaultBreakpoints 834 = specWidestBreakpoint 834 /\
      detectBreakpoint defaultBreakpoints 834 = "tablet_lg" :=
  c5_breakpoint_widest 834 (by norm_num)

/-- Claim C6, counterexample: a GPU string matching none of the six
substring heuristics (for instance the software renderer string) is
assigned the LOW tier by the final else branch of detectDeviceTier, not
the middle tier, even with WebGL available and no device-memory
reading. -/
theorem c6_counterexample :
    detectDeviceTier true ("google swiftshader".toList) none = Tier.low /\
      Tier.low ≠ Tier.mid := by
  refine ⟨by decide, by decide⟩

/-- Claim C6, amended: an unknown GPU — one whose lower-cased
vendor-renderer string contains none of the six known substrings — is
assigned the low tier (not mid) whenever WebGL is available and no
truthy device-memory reading overrides the heuristic. -/
theorem c6_unknown_gpu_low
    (info : List Char)
    (h1 : includesSub ("adreno 6".toList) info = false)
    (h2 : includesSub ("mali-g7".toList) info = false)
    (h3 : includesSub ("apple a1".toList) info = false)
    (h4 : includesSub ("adreno 5".toList) info = false)
    (h5 : includesSub ("mali-g".toList) info = false)
    (h6 : includesSub ("apple a".toList) info = false) :
    detectDeviceTier true info none = Tier.low := by
  simp_all [detectDeviceTier]

/-- Claim C6, witness for the amended theorem on the software-renderer
string. -/
theorem c6_witness :
    detectDeviceTier true ("google swiftshader".toList) none = Tier.low :=
  c6_unknown_gpu_low ("google swiftshader".toList)
    (by decide) (by decide) (by decide) (by decide) (by decide) (by decide)

/-- Claim C7: for a contact starting at time t0 and position (x0, y0),
if any event of the contact's time-ordered event list is a pointer-up,
or a move of more than 10 px from the start, arriving strictly before
t0 + 500 ms, the long-press classifier never fires for this contact:
the takeUntil operators unsubscribe the pending timer at that event
(explicit cancellation), and no later event resurrects it. -/
theorem c7_long_press_cancelled
    (t0 x0 y0 : Int) (evs : List ContactEv)
    (hsorted : List.Pairwise (fun a b => a.time ≤ b.time) evs)
    (hcancel : ∃ ev ∈ evs, cancelsLongPress t0 x0 y0 ev) :
    longPressFires t0 x0 y0 evs = false := by
  induction evs with
  | nil => simp at hcancel
  | cons e rest ih =>
      rcases hcancel with ⟨ev, hev, hc⟩
      by_cases ht : e.time < t0 + 500
      . cases e with
        | up t => simp [longPressFires, ht]
        | move t x y =>
            by_cases hm : 100 < dist2 x0 y0 x y
            . simp [longPressFires, ht, hm]
            . have htail : longPressFires t0 x0 y0 rest = false := by
                apply ih (List.pairwise_cons.1 hsorted).2
                rcases List.mem_cons.1 hev with rfl | hmem
                . exact absurd hc.2 hm
                . exact ⟨ev, hmem, hc⟩
              simp [longPressFires, ht, hm, htail]
      . exfalso
        rcases List.mem_cons.1 hev with rfl | hmem
        . exact ht hc.1
        . have hle := (List.pairwise_cons.1 hsorted).1 ev hmem
          exact ht (lt_of_le_of_lt hle hc.1)

/-- Claim C7, witness: a contact starting at the origin at time 0 whose
pointer-up arrives at 100 ms never produces a long-press. -/
theorem c7_witness : longPressFires 0 0 0 [ContactEv.up 100] = false :=
  c7_long_press_cancelled 0 0 0 [ContactEv.up 100] (by simp)
    ⟨ContactEv.up 100, by simp, by decide⟩

/-- Claim C8: loading a freshly saved envelope returns the saved
payload (the stored hash matches the recomputed one and the version is
compatible), and loading an envelope whose stored nonempty hash differs
from the hash recomputed over its (corrupted) payload returns none —
the embedded load is a total function into Option, mirroring the
source's catch-all that converts any exception into null. -/
theorem c8_save_load_roundtrip :
    (∀ (data : List Nat) (now : Int),
        load (some (save data now)) = some data) ∧
      (∀ sd : SaveData, sd.hash ≠ "" → generateHash sd.data ≠ sd.hash →
        load (some sd) = none) := by
  constructor
  . intro data now
    have hver : isVersionCompatible getVersion = true := by decide
    have hint : verifyIntegrity (save data now) = true := by
      unfold verifyIntegrity save
      by_cases h : generateHash data = ""
      . simp [h]
      . simp [h]
    have hv2 : isVersionCompatible (save data now).version = true := hver
    have hload : load (some (save data now)) = some (save data now).data := by
      simp [load, hint, hv2]
    simpa [save] using hload
  . intro sd h1 h2
    have hint : verifyIntegrity sd = false := by
      unfold verifyIntegrity
      rw [if_neg h1]
      exact decide_eq_false fun hh => h2 hh.symm
    simp [load, hint]

/-- Claim C8, witness: the payload with code units 72, 105 round-trips
through save and load, and the corrupted envelope (payload bit-flipped
to 72, 104 under the original hash) loads as none. -/
theorem c8_witness :
    load (some (save [72, 105] 5)) = some [72, 105] ∧
      load (some corruptedSave) = none :=
  ⟨c8_save_load_roundtrip.1 [72, 105] 5,
    c8_save_load_roundtrip.2 corruptedSave (by decide) (by decide)⟩

/-- Claim C9, counterexample: the double-click detector of the event
bus does not implement a gap-anchored window.  Two events 150 ms apart
(at 250 and 400) produce NO derived event, because they straddle a
fixed 300 ms buffer boundary; and a steady stream with every gap under
300 ms (100, 250, 400, 550) produces TWO derived events, so the window
advances without any event-free gap. -/
theorem c9_counterexample :
    ReactiveEventBus.doubleClickEmits 300 [250, 400] = [] ∧
      (ReactiveEventBus.doubleClickEmits 300 [100, 250, 400, 550]).length = 2 ∧
      (400 - 250 : Int) < 300 ∧ (250 - 100 : Int) < 300 ∧
      (550 - 400 : Int) < 300 := by
  refine ⟨by decide, by decide, by decide, by decide, by decide⟩

/-- Claim C9, amended: the detector collects events into consecutive
fixed 300 ms buffer windows measured from subscription.  A window with
exactly two events yields exactly one derived event, the second of the
pair; a third event in the same window suppresses the emission for that
window entirely.  The windows advance every 300 ms regardless of gaps:
they are not anchored to the events and do not reset on a gap. -/
theorem c9_buffered_double_click
    (t1 t2 t3 : Int)
    (h12 : windowIdx 300 t1 = windowIdx 300 t2)
    (h23 : windowIdx 300 t2 = windowIdx 300 t3) :
    ReactiveEventBus.doubleClickEmits 300 [t1, t2] = [t2] ∧
      ReactiveEventBus.doubleClickEmits 300 [t1, t2, t3] = [] := by
  constructor
  . simp [ReactiveEventBus.doubleClickEmits, groupByKey, h12]
  . simp [ReactiveEventBus.doubleClickEmits, groupByKey, h12, h23]

/-- Claim C9, witness for the amended theorem: events at 10 and 20
share the first window and collapse to one derived event; a third event
at 30 in the same window suppresses the emission. -/
theorem c9_witness :
    ReactiveEventBus.doubleClickEmits 300 [10, 20] = [20] ∧
      ReactiveEventBus.doubleClickEmits 300 [10, 20, 30] = [] :=
  c9_buffered_double_click 10 20 30 (by decide) (by decide)

/-- Claim C10: when the stored envelope's hash field is missing or
empty (JS-falsy), verifyIntegrity returns true without recomputing
anything and load returns the stored payload: a payload whose hash was
deleted is accepted as valid. -/
theorem c10_missing_hash_accepted
    (sd : SaveData) (hh : sd.hash = "")
    (hv : isVersionCompatible sd.version = true) :
    load (some sd) = some sd.data := by
  have hint : verifyIntegrity sd = true := by
    unfold verifyIntegrity
    rw [if_pos hh]
  simp [load, hint, hv]

/-- Claim C10, witness: the hashless envelope with an arbitrary payload
loads successfully as that payload. -/
theorem c10_witness : load (some hashlessSave) = some [9, 9, 9] :=
  c10_missing_hash_accepted hashlessSave (by decide) (by decide)

end Claims
